import Mathlib

/-!
Shallow embedding of the urlfetch HTTP client library (v0.3.6), covering the
pieces of the code that the specification's claims are about:

* the single-file variant `urlfetch.py`: `Response.__init__`,
  `Response._download_content`, the `body` property, `mb_code`, `fetch`,
  `request`, `_encode_multipart`;
* the package variant `urlfetch/__init__.py`: `Response.__init__` with its
  `prefetch` flag and the lazy `body` property;
* the legacy `urlfetch/urlfetch.py`: `fetch2`.

Machine-level primitives of the Python runtime (exceptions, `int()`
conversion, string/bytes codecs, the httplib response object) are embedded
explicitly; byte strings are `List Nat` with each entry < 256.
-/

deriving instance DecidableEq for Except

namespace Urlfetch

/-- Python exception kinds that the embedded code paths can raise. -/
inductive PyErr
  | nameError (msg : String)
  | valueError (msg : String)
  | typeError (msg : String)
  | urlfetchException (msg : String)
  deriving DecidableEq, Repr

/-- Python values that may be passed as the `length_limit` keyword argument.
Models the subset relevant here: `None`, `int`, `str`, `bool`. -/
inductive PyVal
  | pyNone
  | pyInt (n : Int)
  | pyStr (s : String)
  | pyBool (b : Bool)
  deriving DecidableEq, Repr

/-- Python `str.upper()` (ASCII). -/
def pyUpper (s : String) : String := String.mk (s.toList.map Char.toUpper)

/-- Python `str.lower()` (ASCII). -/
def pyLower (s : String) : String := String.mk (s.toList.map Char.toLower)

/-- Value of a digit string. -/
def digitsVal (l : List Char) : Nat := l.foldl (fun a c => a * 10 + (c.toNat - 48)) 0

/-- ASCII whitespace, as stripped by Python `int(str)`. -/
def isSpaceChar (c : Char) : Bool :=
  c = ' ' || c = '\t' || c = '\n' || c = '\r' || c = '\x0b' || c = '\x0c'

/-- Parse a decimal integer character list: optional sign then at least one
digit, nothing else. -/
def strToIntCore : List Char → Option Int
  | [] => Option.none
  | '-' :: d =>
    if d ≠ [] && d.all Char.isDigit then some (-(digitsVal d : Int)) else Option.none
  | '+' :: d =>
    if d ≠ [] && d.all Char.isDigit then some (digitsVal d : Int) else Option.none
  | d =>
    if d.all Char.isDigit then some (digitsVal d : Int) else Option.none

/-- Parse a decimal integer string the way Python `int(str)` does for the
modeled subset: surrounding whitespace stripped, optional sign, at least one
digit, nothing else. -/
def strToInt (s : String) : Option Int :=
  strToIntCore (((s.toList.dropWhile isSpaceChar).reverse.dropWhile isSpaceChar).reverse)

/-- Python `int()` applied to a value: `int` and `bool` convert, decimal
strings parse (else `ValueError`), `None` is a `TypeError`. -/
def toIntPy : PyVal → Except PyErr Int
  | .pyNone => .error (.typeError "int() argument must be a string or a number, not NoneType")
  | .pyInt n => .ok n
  | .pyBool b => .ok (if b then 1 else 0)
  | .pyStr s =>
    match strToInt s with
    | some n => .ok n
    | Option.none => .error (.valueError ("invalid literal for int() with base 10: " ++ s))

/-- The httplib response primitive handed to `Response.__init__`: status line
data, the header list, and the not-yet-consumed body bytes of the socket. -/
structure HttpResponse where
  status : Nat
  reason : String
  version : Nat
  headers : List (String × String)
  bodyBytes : List Nat
  deriving DecidableEq, Repr

/-- httplib `getheader(name, default)`: case-insensitive lookup returning the
header value as a string, or the given default Python value. -/
def getheaderD (r : HttpResponse) (name : String) (dflt : PyVal) : PyVal :=
  match r.headers.find? (fun p => pyLower p.1 = pyLower name) with
  | some p => .pyStr p.2
  | Option.none => dflt

/-- Chunk size used by `Response._download_content` (its default parameter,
`10 * 1024`). -/
def chunkSize : Nat := 10 * 1024

/-- Truthiness test `self.length_limit and len(content) > self.length_limit`:
false when the limit is `None` or `0`, else compares the length. -/
def limitExceeded (limit : Option Int) (n : Nat) : Bool :=
  match limit with
  | Option.none => false
  | some l => decide (l ≠ 0) && decide ((n : Int) > l)

/-- The `Response._download_content` loop of `urlfetch.py`: repeatedly read a
chunk, append it, and raise once the accumulated content exceeds a truthy
`length_limit`.  The raise line formats the message with the bare name
`length_limit`, which is not defined in that scope, so a `NameError` is what
actually escapes. -/
def downloadContent (limit : Option Int) (remaining acc : List Nat) :
    Except PyErr (List Nat) :=
  if hrem : remaining = [] then .ok acc
  else
    let chunk := remaining.take chunkSize
    let content := acc ++ chunk
    if limitExceeded limit content.length then
      .error (.nameError "name 'length_limit' is not defined")
    else
      downloadContent limit (remaining.drop chunkSize) content
termination_by remaining.length
decreasing_by
  simp only [List.length_drop]
  have hpos : 0 < remaining.length := List.length_pos.mpr hrem
  have : 0 < chunkSize := by decide
  omega

/-- State of a single-file-variant `Response` after a successful
`__init__`: the parsed limit, the cached body, what is left unread on the
underlying stream, and whether the connection was closed. -/
structure Response where
  status : Nat
  reason : String
  version : Nat
  lengthLimit : Option Int
  bodyCache : Option (List Nat)
  rawRemaining : List Nat
  closed : Bool
  deriving DecidableEq, Repr

/-- Result of `Response.__init__`: either a constructed response or a raised
exception together with whether `close()` had run before the raise. -/
inductive InitResult
  | ok (resp : Response)
  | err (e : PyErr) (closedBeforeRaise : Bool)
  deriving DecidableEq, Repr

/-- The guarded limit parse of `Response.__init__`:
`try: self.length_limit = int(kwargs.get('length_limit')) except: self.length_limit = None`.
The bare `except` swallows every conversion failure. -/
def parseLengthLimit (v : PyVal) : Option Int :=
  match toIntPy v with
  | .ok n => some n
  | .error _ => Option.none

/-- Tail of `Response.__init__` (single-file variant):
`self._body = self._download_content()` followed by `self.close()`.
A raise inside `_download_content` escapes before the `close()` line. -/
def responseInitDownload (r : HttpResponse) (ll : Option Int) : InitResult :=
  match downloadContent ll r.bodyBytes [] with
  | .error e => .err e false
  | .ok content =>
    .ok { status := r.status, reason := r.reason, version := r.version,
          lengthLimit := ll, bodyCache := some content, rawRemaining := [],
          closed := true }

/-- `Response.__init__` of the single-file `urlfetch.py`:
`try: self.length_limit = int(kwargs.get('length_limit')) except: None`;
then, when the limit is truthy and the declared `Content-Length` exceeds it,
`self.close()` followed by a raise whose message formats the undefined bare
name `length_limit` (hence a `NameError`); otherwise the body is downloaded
eagerly and the connection closed. -/
def responseInit (r : HttpResponse) (lengthLimitArg : PyVal) : InitResult :=
  match parseLengthLimit lengthLimitArg with
  | some l =>
    if l ≠ 0 then
      match toIntPy (getheaderD r "Content-Length" (.pyInt 0)) with
      | .error e => .err e false
      | .ok declared =>
        if declared > l then .err (.nameError "name 'length_limit' is not defined") true
        else responseInitDownload r (some l)
    else responseInitDownload r (some l)
  | Option.none => responseInitDownload r Option.none

/-- The `body` property of the single-file variant: return the cache if
present, else run `_download_content` and cache the result. -/
def responseBody (s : Response) : Except PyErr (List Nat × Response) :=
  match s.bodyCache with
  | some b => .ok (b, s)
  | Option.none =>
    match downloadContent s.lengthLimit s.rawRemaining [] with
    | .error e => .error e
    | .ok content =>
      .ok (content, { s with bodyCache := some content, rawRemaining := [] })

/-- State of a package-variant (`urlfetch/__init__.py`) `Response`. -/
structure PkgResponse where
  bodyCache : Option (List Nat)
  rawRemaining : List Nat
  closed : Bool
  deriving DecidableEq, Repr

/-- `Response.__init__` of `urlfetch/__init__.py`: when
`kwargs.get('prefetch', False)` is true, `self._body = self._r.read()` and
`self.close()`; otherwise the stream is left untouched. -/
def pkgResponseInit (r : HttpResponse) (prefetch : Bool) : PkgResponse :=
  if prefetch then
    { bodyCache := some r.bodyBytes, rawRemaining := [], closed := true }
  else
    { bodyCache := Option.none, rawRemaining := r.bodyBytes, closed := false }

/-- The `body` property of the package variant:
`if self._body is None: self._body = self._r.read()` then return it. -/
def pkgBody (s : PkgResponse) : List Nat × PkgResponse :=
  match s.bodyCache with
  | some b => (b, s)
  | Option.none =>
    (s.rawRemaining, { s with bodyCache := some s.rawRemaining, rawRemaining := [] })

/-- Split a character list at its last colon, if any: the helper behind
Python `netloc.rsplit(':', 1)`. -/
def rsplitColonList : List Char → Option (List Char × List Char)
  | [] => Option.none
  | c :: rest =>
    match rsplitColonList rest with
    | some (a, b) => some (c :: a, b)
    | Option.none => if c = ':' then some ([], rest) else Option.none

/-- Python `netloc.rsplit(':', 1)` restricted to the two-piece case: `some`
exactly when the string contains a colon, splitting at the last one. -/
def rsplitColon (s : String) : Option (String × String) :=
  match rsplitColonList s.toList with
  | some (a, b) => some (String.mk a, String.mk b)
  | Option.none => Option.none

/-- The netloc handling of `request` (urlfetch.py lines 423-427) and of
`fetch2` (urlfetch/urlfetch.py lines 106-110):
`host, port = netloc.rsplit(':', 1); port = int(port)` when a colon is
present, else port `None`.  The `int()` conversion is unguarded, so a
non-integer port raises. -/
def parseHostPort (netloc : String) : Except PyErr (String × Option Int) :=
  match rsplitColon netloc with
  | some (host, portStr) =>
    (match toIntPy (.pyStr portStr) with
     | .ok n => .ok (host, some n)
     | .error e => .error e)
  | Option.none => .ok (netloc, Option.none)

/-- UTF-8 encoding of one character (what the `codecs` utf-8 stream writer
produces per character). -/
def utf8EncodeChar (c : Char) : List Nat :=
  let n := c.toNat
  if n < 0x80 then [n]
  else if n < 0x800 then [0xC0 + n / 64, 0x80 + n % 64]
  else if n < 0x10000 then
    [0xE0 + n / 4096, 0x80 + (n / 64) % 64, 0x80 + n % 64]
  else
    [0xF0 + n / 262144, 0x80 + (n / 4096) % 64, 0x80 + (n / 64) % 64, 0x80 + n % 64]

/-- UTF-8 encoding of a string. -/
def utf8Encode (s : String) : List Nat := (s.toList.map utf8EncodeChar).flatten

/-- The `b()` helper of urlfetch.py: latin-1 encoding of a string (all code
points involved are below 256). -/
def latin1Bytes (s : String) : List Nat := s.toList.map Char.toNat

/-- Form-field values appearing in a `data` dict: Python str, bytes, or a
list of str (the tagged union the spec asks for). -/
inductive FieldVal
  | fstr (s : String)
  | fbytes (b : List Nat)
  | flist (l : List String)
  deriving DecidableEq, Repr

/-- Writing a data-dict value inside `_encode_multipart`: a str goes through
the utf-8 writer, bytes through `body.write`; `body.write` of a list raises
`TypeError`. -/
def writeValue : FieldVal → Except PyErr (List Nat)
  | .fstr s => .ok (utf8Encode s)
  | .fbytes b => .ok b
  | .flist _ => .error (.typeError "a bytes-like object is required, not list")

/-- One scalar part of a multipart body: boundary line, Content-Disposition,
text/plain Content-Type, the value bytes and a trailing CRLF, exactly as the
data loop of `_encode_multipart` writes them. -/
def scalarPart (boundary name : String) (valueBytes : List Nat) : List Nat :=
  latin1Bytes ("--" ++ boundary ++ "\r\n")
    ++ utf8Encode ("Content-Disposition: form-data; name=\"" ++ name ++ "\"\r\n")
    ++ latin1Bytes "Content-Type: text/plain\r\n\r\n"
    ++ valueBytes
    ++ latin1Bytes "\r\n"

/-- One file part of a multipart body: as `scalarPart` but with a filename in
the disposition and an application/octet-stream Content-Type. -/
def filePart (boundary fieldname filename : String) (valueBytes : List Nat) : List Nat :=
  latin1Bytes ("--" ++ boundary ++ "\r\n")
    ++ utf8Encode ("Content-Disposition: form-data; name=\"" ++ fieldname
        ++ "\"; filename=\"" ++ filename ++ "\"\r\n")
    ++ latin1Bytes "Content-Type: application/octet-stream\r\n\r\n"
    ++ valueBytes
    ++ latin1Bytes "\r\n"

/-- The data loop of `_encode_multipart`: emit one part per dict entry, in
order.  Returns the emitted bytes and the final value of the loop variable
`name` (Python leaves it bound after the loop; the files loop reads it in one
branch). -/
def encodeDataParts (boundary : String) :
    List (String × FieldVal) → Except PyErr (List Nat × Option String)
  | [] => .ok ([], Option.none)
  | (name, v) :: rest =>
    match writeValue v with
    | .error e => .error e
    | .ok vb =>
      match encodeDataParts boundary rest with
      | .error e => .error e
      | .ok (restBytes, lastName) =>
        .ok (scalarPart boundary name vb ++ restBytes, some (lastName.getD name))

/-- Upload values in the `files` dict, as the tagged union the source's
polymorphic checks resolve them to: a `(filename, content)` tuple, a
file-like object with a `.name` (basename) and readable content, or a value
with neither, which the source rejects. -/
inductive FileVal
  | pair (filename : String) (content : FieldVal)
  | withName (basename : String) (content : FieldVal)
  | noName (content : FieldVal)
  deriving DecidableEq, Repr

/-- The files loop of `_encode_multipart`.  `lastName` is the leftover data
loop variable `name`: the `filename` falsy branch formats it, and when it was
never bound a `NameError` results.  A value with no derivable filename raises
`UrlfetchException`; a list content raises `TypeError` at the write. -/
def encodeFileParts (boundary : String) (lastName : Option String) :
    List (String × FileVal) → Except PyErr (List Nat)
  | [] => .ok []
  | (fieldname, f) :: rest =>
    let resolved : Except PyErr (String × FieldVal) :=
      match f with
      | .pair fn c => .ok (fn, c)
      | .withName fn c => .ok (fn, c)
      | .noName _ => .error (.urlfetchException "file must has filename")
    match resolved with
    | .error e => .error e
    | .ok (filename, content) =>
      match writeValue content with
      | .error e => .error e
      | .ok vb =>
        let part : Except PyErr (List Nat) :=
          if filename ≠ "" then .ok (filePart boundary fieldname filename vb)
          else
            match lastName with
            | some nm => .ok (scalarPart boundary nm vb)
            | Option.none => .error (.nameError "name 'name' is not defined")
        match part with
        | .error e => .error e
        | .ok pb =>
          match encodeFileParts boundary lastName rest with
          | .error e => .error e
          | .ok restBytes => .ok (pb ++ restBytes)

/-- The `data` argument of `request`/`fetch`: `None`, a str, bytes, or a
dict of form fields. -/
inductive PyData
  | noData
  | strData (s : String)
  | bytesData (b : List Nat)
  | dictData (d : List (String × FieldVal))
  deriving DecidableEq, Repr

/-- `_encode_multipart(data, files)`: data parts when `data` is a dict, then
file parts, then the closing boundary; returns the content type and the body
bytes.  The boundary string (randomly generated by `choose_boundary` in the
source) is taken as a parameter. -/
def encodeMultipart (boundary : String) (data : PyData)
    (files : List (String × FileVal)) : Except PyErr (String × List Nat) :=
  let dataPass : Except PyErr (List Nat × Option String) :=
    match data with
    | .dictData d => encodeDataParts boundary d
    | _ => .ok ([], Option.none)
  match dataPass with
  | .error e => .error e
  | .ok (dataBytes, lastName) =>
    match encodeFileParts boundary lastName files with
    | .error e => .error e
    | .ok fileBytes =>
      .ok ("multipart/form-data; boundary=" ++ boundary,
           dataBytes ++ fileBytes ++ latin1Bytes ("--" ++ boundary ++ "--\r\n"))

/-- Bytes left untouched by `urllib.parse.quote_plus`: ASCII letters, digits
and the always-safe punctuation. -/
def isUrlSafeByte (b : Nat) : Bool :=
  decide (48 ≤ b ∧ b ≤ 57) || decide (65 ≤ b ∧ b ≤ 90) || decide (97 ≤ b ∧ b ≤ 122)
    || decide (b = 45) || decide (b = 46) || decide (b = 95) || decide (b = 126)

/-- Upper-case hex digit. -/
def hexDigit (n : Nat) : Char := if n < 10 then Char.ofNat (48 + n) else Char.ofNat (55 + n)

/-- Percent-encode a byte string the way `quote_plus` does: safe bytes pass
through, space becomes `+`, everything else `%XX`. -/
def quotePlusBytes (bs : List Nat) : String :=
  String.mk ((bs.map fun b =>
    if isUrlSafeByte b then [Char.ofNat b]
    else if b = 32 then ['+']
    else ['%', hexDigit (b / 16 % 16), hexDigit (b % 16)]).flatten)

/-- `quote_plus` on a str: utf-8 encode, then percent-encode. -/
def quotePlus (s : String) : String := quotePlusBytes (utf8Encode s)

/-- `urllib.parse.urlencode(data, 1)` (doseq): join `k=v` pairs with `&`,
expanding list values into repeated keys. -/
def urlencodeDoseq (d : List (String × FieldVal)) : String :=
  String.intercalate "&" ((d.map fun p =>
    match p.2 with
    | .fstr s => [quotePlus p.1 ++ "=" ++ quotePlus s]
    | .fbytes b => [quotePlus p.1 ++ "=" ++ quotePlusBytes b]
    | .flist l => l.map fun s => quotePlus p.1 ++ "=" ++ quotePlus s).flatten)

/-- Python `str.title()` restricted to ASCII: a letter following a non-letter
is upper-cased, a letter following a letter lower-cased. -/
def pyTitleAux : Bool → List Char → List Char
  | _, [] => []
  | prevAlpha, c :: rest =>
    let isAlpha := c.isAlpha
    let c2 := if isAlpha then (if prevAlpha then c.toLower else c.toUpper) else c
    c2 :: pyTitleAux isAlpha rest

/-- Python `str.title()` (ASCII). -/
def pyTitle (s : String) : String := String.mk (pyTitleAux false s.toList)

/-- Python dict assignment `d[k] = v` on an association list: replace in
place when the exact key exists, else append. -/
def setHeader (hs : List (String × String)) (k v : String) : List (String × String) :=
  if hs.any (fun p => p.1 = k) then hs.map (fun p => if p.1 = k then (k, v) else p)
  else hs ++ [(k, v)]

/-- Default request headers, `Headers().items()` of urlfetch.py. -/
def defaultHeaders : List (String × String) :=
  [("Accept", "*/*"), ("User-Agent", "urlfetch/0.3.6")]

/-- Methods accepted by `request` (`_allowed_methods`). -/
def allowedMethods : List String :=
  ["GET", "DELETE", "HEAD", "OPTIONS", "PUT", "POST", "TRACE", "PATCH"]

/-- Observable side effects of the request pipeline, in order: opening an
HTTP(S) connection, and sending the request line over it. -/
inductive Effect
  | connect (scheme : String) (host : String) (port : Option Int)
  | send (method : String) (requrl : String)
  deriving DecidableEq, Repr

/-- The components `urlparse.urlsplit(url)` hands back; the claims are stated
over these, the split itself being a Python stdlib primitive. -/
structure UrlParts where
  scheme : String
  netloc : String
  path : String
  query : String
  fragment : String
  deriving DecidableEq, Repr

/-- Everything `request` has computed by the time it calls
`h.request(method, requrl, data, reqheaders)`. -/
structure RequestPlan where
  method : String
  requrl : String
  connHost : String
  connPort : Option Int
  scheme : String
  reqheaders : List (String × String)
  sentData : PyData
  deriving DecidableEq, Repr

/-- Body/header assembly of `request` (urlfetch.py lines 437-450): multipart
encoding when `files` is non-empty, else dict data url-encoded; a str/bytes
body without files forces the form-urlencoded Content-Type. -/
def assembleBody (boundary : String) (data : PyData)
    (files : List (String × FileVal)) :
    Except PyErr (List (String × String) × PyData) :=
  let reqheaders := defaultHeaders
  if files ≠ [] then
    match encodeMultipart boundary data files with
    | .error e => .error e
    | .ok (ct, body) => .ok (setHeader reqheaders "Content-Type" ct, .bytesData body)
  else
    let data2 : PyData :=
      match data with
      | .dictData d => .strData (urlencodeDoseq d)
      | d => d
    match data2 with
    | .strData _ =>
      .ok (setHeader reqheaders "Content-Type" "application/x-www-form-urlencoded", data2)
    | .bytesData _ =>
      .ok (setHeader reqheaders "Content-Type" "application/x-www-form-urlencoded", data2)
    | _ => .ok (reqheaders, data2)

/-- The `request` function of urlfetch.py, staged in source order after
`urlsplit`: upper-case and validate the method, build `requrl` from path and
query (fragment dropped), split host and port, IDNA-encode the host (the
codec is a runtime primitive, passed in as `idna`), open the connection
(first effect), encode body and headers, apply caller headers title-cased,
and send (second effect).  Errors raised before the connection leave an empty
effect trace. -/
def requestCore (idna : String → Except PyErr String) (boundary : String)
    (parts : UrlParts) (method : String) (data : PyData)
    (headers : List (String × String)) (files : List (String × FileVal)) :
    Except PyErr RequestPlan × List Effect :=
  let m := pyUpper method
  if m ∈ allowedMethods then
    let requrl := parts.path ++ (if parts.query ≠ "" then "?" ++ parts.query else "")
    match parseHostPort parts.netloc with
    | .error e => (.error e, [])
    | .ok (host0, port) =>
      match idna host0 with
      | .error e => (.error e, [])
      | .ok host =>
        if parts.scheme = "https" ∨ parts.scheme = "http" then
          let connectEff := Effect.connect parts.scheme host port
          match assembleBody boundary data files with
          | .error e => (.error e, [connectEff])
          | .ok (reqheaders0, sentData) =>
            let reqheaders := headers.foldl
              (fun hs p => setHeader hs (pyTitle p.1) p.2) reqheaders0
            (.ok { method := m, requrl := requrl, connHost := host,
                   connPort := port, scheme := parts.scheme,
                   reqheaders := reqheaders, sentData := sentData },
             [connectEff, .send m requrl])
        else (.error (.urlfetchException ("Unsupported protocol " ++ parts.scheme)), [])
  else
    (.error (.urlfetchException
      ("Method shoud be one of " ++ String.intercalate ", " allowedMethods)), [])

/-- The dispatch condition of `fetch` (urlfetch.py lines 387-389):
`data is not None and isinstance(data, (basestring, dict))` selects POST,
anything else GET.  The `files` argument is not consulted. -/
def fetchDispatch (data : PyData) (files : List (String × FileVal)) : String :=
  let _ := files
  match data with
  | .strData _ => "POST"
  | .bytesData _ => "POST"
  | .dictData _ => "POST"
  | .noData => "GET"

/-- The base64 alphabet, by index. -/
def b64Char (n : Nat) : Char :=
  if n < 26 then Char.ofNat (65 + n)
  else if n < 52 then Char.ofNat (97 + (n - 26))
  else if n < 62 then Char.ofNat (48 + (n - 52))
  else if n = 62 then '+' else '/'

/-- Standard base64 encoding of a byte string (`base64.b64encode`). -/
def b64Encode : List Nat → String
  | [] => ""
  | [a] =>
    String.mk [b64Char (a / 4), b64Char (a % 4 * 16), '=', '=']
  | [a, b] =>
    String.mk [b64Char (a / 4), b64Char (a % 4 * 16 + b / 16), b64Char (b % 16 * 4), '=']
  | a :: b :: c :: rest =>
    String.mk [b64Char (a / 4), b64Char (a % 4 * 16 + b / 16),
               b64Char (b % 16 * 4 + c / 64), b64Char (c % 64)]
      ++ b64Encode rest

/-- Split a character list at its first `@`, if any (Python
`netloc.split('@', 1)` in the two-piece case). -/
def splitAtSign : List Char → Option (List Char × List Char)
  | [] => Option.none
  | c :: rest =>
    if c = '@' then some ([], rest)
    else
      match splitAtSign rest with
      | some (a, b) => some (c :: a, b)
      | Option.none => Option.none

/-- Everything `fetch2` (urlfetch/urlfetch.py) has computed by the time it
calls `h.request(method, requrl, data, reqheaders)`. -/
structure Fetch2Plan where
  method : String
  requrl : String
  connHost : String
  connPort : Option Int
  scheme : String
  auth : Option String
  deriving DecidableEq, Repr

/-- The `fetch2` function of urlfetch/urlfetch.py, staged in source order: a
method outside its allowed set silently becomes GET; `requrl` is built from
path, query AND fragment (line 98 appends a non-empty fragment);
`user:pass@` credentials are split off the netloc and base64-encoded; the
remaining netloc is split into host and unguarded `int(port)`; an unknown
scheme raises.  (Header construction past this point is not needed by the
claims and stops at the plan.) -/
def fetch2Core (parts : UrlParts) (method : String) : Except PyErr Fetch2Plan :=
  let m0 := pyUpper method
  let m := if m0 ∈ ["GET", "PUT", "DELETE", "POST", "HEAD"] then m0 else "GET"
  let requrl0 := parts.path ++ (if parts.query ≠ "" then "?" ++ parts.query else "")
  let requrl := requrl0 ++ (if parts.fragment ≠ "" then "#" ++ parts.fragment else "")
  let (auth, netloc) :=
    match splitAtSign parts.netloc.toList with
    | some (a, rest) => (some (b64Encode (latin1Bytes (String.mk a))), String.mk rest)
    | Option.none => (Option.none, parts.netloc)
  match parseHostPort netloc with
  | .error e => .error e
  | .ok (host, port) =>
    if parts.scheme = "https" ∨ parts.scheme = "http" then
      .ok { method := m, requrl := requrl, connHost := host, connPort := port,
            scheme := parts.scheme, auth := auth }
    else .error (.urlfetchException ("Unsupported protocol " ++ parts.scheme))

/-- The replacement character U+FFFD. -/
def replacementChar : Char := Char.ofNat 0xFFFD

/-- Continuation byte test, `0x80..0xBF`. -/
def isCont (b : Nat) : Bool := decide (0x80 ≤ b ∧ b < 0xC0)

/-- Admissible range of the first continuation byte given the lead byte, per
the UTF-8 well-formedness table (excludes overlong forms and surrogates). -/
def cont1Ok (lead b : Nat) : Bool :=
  if lead = 0xE0 then decide (0xA0 ≤ b ∧ b < 0xC0)
  else if lead = 0xED then decide (0x80 ≤ b ∧ b < 0xA0)
  else if lead = 0xF0 then decide (0x90 ≤ b ∧ b < 0xC0)
  else if lead = 0xF4 then decide (0x80 ≤ b ∧ b < 0x90)
  else isCont b

/-- Decode a byte list as UTF-8 with the `errors='replace'` handler, i.e.
Python `bytes.decode('utf-8', errors='replace')`: each maximal invalid
subpart becomes one U+FFFD.  This is total: replacement-mode decoding never
raises, which is what makes the codec loop of `mb_code` stop at its first
iteration. -/
def utf8ReplaceList : List Nat → List Char
  | [] => []
  | b :: rest =>
    if b < 0x80 then Char.ofNat b :: utf8ReplaceList rest
    else if b < 0xC2 then replacementChar :: utf8ReplaceList rest
    else if b < 0xE0 then
      match rest with
      | [] => [replacementChar]
      | c1 :: rest1 =>
        if isCont c1 then
          Char.ofNat ((b - 0xC0) * 64 + (c1 - 0x80)) :: utf8ReplaceList rest1
        else replacementChar :: utf8ReplaceList (c1 :: rest1)
    else if b < 0xF0 then
      match rest with
      | [] => [replacementChar]
      | c1 :: rest1 =>
        if cont1Ok b c1 then
          match rest1 with
          | [] => [replacementChar]
          | c2 :: rest2 =>
            if isCont c2 then
              Char.ofNat ((b - 0xE0) * 4096 + (c1 - 0x80) * 64 + (c2 - 0x80))
                :: utf8ReplaceList rest2
            else replacementChar :: utf8ReplaceList (c2 :: rest2)
        else replacementChar :: utf8ReplaceList (c1 :: rest1)
    else if b < 0xF5 then
      match rest with
      | [] => [replacementChar]
      | c1 :: rest1 =>
        if cont1Ok b c1 then
          match rest1 with
          | [] => [replacementChar]
          | c2 :: rest2 =>
            if isCont c2 then
              match rest2 with
              | [] => [replacementChar]
              | c3 :: rest3 =>
                if isCont c3 then
                  Char.ofNat ((b - 0xF0) * 262144 + (c1 - 0x80) * 4096
                      + (c2 - 0x80) * 64 + (c3 - 0x80)) :: utf8ReplaceList rest3
                else replacementChar :: utf8ReplaceList (c3 :: rest3)
            else replacementChar :: utf8ReplaceList (c2 :: rest2)
        else replacementChar :: utf8ReplaceList (c1 :: rest1)
    else replacementChar :: utf8ReplaceList rest

/-- Python `bytes.decode('utf-8', errors='replace')` as a string. -/
def utf8Replace (bs : List Nat) : String := String.mk (utf8ReplaceList bs)

/-- The codec list of `mb_code`, in source order. -/
def codecNames : List String := ["utf-8", "gb2312", "gbk", "gb18030", "big5"]

/-- One `s.decode(c, errors='replace')` call inside `mb_code`.  The utf-8
codec is embedded concretely (and, like any replacement-mode decode, is
total); the four CJK codecs are taken as an arbitrary interpretation so that
theorems about `mb_code` hold for every possible behaviour of theirs. -/
def decodeReplace (cjk : String → List Nat → Except PyErr String)
    (c : String) (bs : List Nat) : Except PyErr String :=
  if c = "utf-8" then .ok (utf8Replace bs) else cjk c bs

/-- The codec loop of `mb_code` (urlfetch.py lines 1661-1666): try each codec
with `errors='replace'`, returning the first success, the raw bytes if every
codec raised. -/
def mbCodeLoop (cjk : String → List Nat → Except PyErr String)
    (bs : List Nat) : List String → String ⊕ List Nat
  | [] => .inr bs
  | c :: cs =>
    match decodeReplace cjk c bs with
    | .ok s => .inl s
    | .error _ => mbCodeLoop cjk bs cs

/-- `mb_code(s)` for a bytes argument with `coding=None`, the call the `text`
property makes: loop over the codec list. -/
def mbCode (cjk : String → List Nat → Except PyErr String)
    (bs : List Nat) : String ⊕ List Nat :=
  mbCodeLoop cjk bs codecNames

/-- The `text` property of the single-file variant: `mb_code(self.body)` on
the cached body bytes. -/
def responseText (cjk : String → List Nat → Except PyErr String)
    (s : Response) : Except PyErr (String ⊕ List Nat) :=
  match responseBody s with
  | .error e => .error e
  | .ok (b, _) => .ok (mbCode cjk b)

/-- The `fetch` function: delegate to `get`/`post`, which are
`partial(request, method=...)`, with the method chosen by `fetchDispatch`. -/
def fetchCall (idna : String → Except PyErr String) (boundary : String)
    (parts : UrlParts) (data : PyData) (headers : List (String × String))
    (files : List (String × FileVal)) : Except PyErr RequestPlan × List Effect :=
  requestCore idna boundary parts (fetchDispatch data files) data headers files

/-- Scalar (non-list) test for a form-field value. -/
def isScalarField : FieldVal → Bool
  | .flist _ => false
  | _ => true

/-- Bytes a scalar field value contributes to its multipart part (the list
case is irrelevant under a scalar hypothesis). -/
def scalarValueBytes : FieldVal → List Nat
  | .fstr s => utf8Encode s
  | .fbytes b => b
  | .flist _ => []

/-- Instantiation of the idna-codec parameter used by concrete evaluations:
on an all-ASCII hostname the codec lower-cases and returns it. -/
def asciiIdna : String → Except PyErr String := fun s => .ok (pyLower s)

/-- Fixture: a ten-byte body. -/
def exBody10 : List Nat := [1, 2, 3, 4, 5, 6, 7, 8, 9, 10]

/-- Fixture: raw response declaring `Content-Length: 10`. -/
def exRespCL : HttpResponse :=
  { status := 200, reason := "OK", version := 11,
    headers := [("Content-Length", "10")], bodyBytes := exBody10 }

/-- Fixture: raw response with no Content-Length header and a ten-byte body. -/
def exRespNoCL : HttpResponse :=
  { status := 200, reason := "OK", version := 11, headers := [], bodyBytes := exBody10 }

/-- Fixture: raw response with a three-byte body. -/
def exRespSmall : HttpResponse :=
  { status := 200, reason := "OK", version := 11, headers := [], bodyBytes := [1, 2, 3] }

/-- Fixture: a non-empty `files` mapping with one named upload. -/
def exFiles : List (String × FileVal) := [("file", .pair "a.txt" (.fbytes [104, 105]))]

/-- Fixture: split components of a plain URL. -/
def exParts : UrlParts :=
  { scheme := "http", netloc := "example.com", path := "/", query := "", fragment := "" }

/-- Fixture: split components of a URL with query and fragment. -/
def exPartsC7 : UrlParts :=
  { scheme := "http", netloc := "example.com", path := "/p", query := "q=1", fragment := "frag" }

/-- Fixture: the request plan `request` produces for `exPartsC7` with no data. -/
def exPlanC7 : RequestPlan :=
  { method := "GET", requrl := "/p?q=1", connHost := "example.com",
    connPort := Option.none, scheme := "http", reqheaders := defaultHeaders,
    sentData := .noData }

/-- Fixture: the effect trace of that request. -/
def exEffsC7 : List Effect :=
  [.connect "http" "example.com" Option.none, .send "GET" "/p?q=1"]

/-- Fixture: the plan `fetch2` produces for `exPartsC7`, fragment included. -/
def exPlan2C7 : Fetch2Plan :=
  { method := "GET", requrl := "/p?q=1#frag", connHost := "example.com",
    connPort := Option.none, scheme := "http", auth := Option.none }

/-- Fixture: a single-file-variant response whose body is already cached. -/
def exRespCached : Response :=
  { status := 200, reason := "OK", version := 11, lengthLimit := Option.none,
    bodyCache := some [7], rawRemaining := [], closed := true }


/-- Evaluation lemma: with no limit, `_download_content` returns the whole
remaining stream. -/
theorem downloadContent_none (remaining acc : List Nat) :
    downloadContent Option.none remaining acc = .ok (acc ++ remaining) := by
  rw [downloadContent.eq_def]
  by_cases h : remaining = []
  · simp [h]
  · simp only [h, dif_neg, not_false_iff, limitExceeded, if_false]
    rw [downloadContent_none (remaining.drop chunkSize) (acc ++ remaining.take chunkSize)]
    rw [List.append_assoc, List.take_append_drop]
    simp
termination_by remaining.length
decreasing_by
  simp only [List.length_drop]
  have hpos : 0 < remaining.length := List.length_pos.mpr h
  have : 0 < chunkSize := by decide
  omega

/-- Evaluation lemma: on a stream of at most one chunk, `_download_content`
raises iff the limit is exceeded, else returns everything. -/
theorem downloadContent_small (limit : Option Int) (remaining acc : List Nat)
    (hlen : remaining.length ≤ chunkSize) (hne : remaining ≠ []) :
    downloadContent limit remaining acc =
      if limitExceeded limit (acc ++ remaining).length then
        .error (.nameError "name 'length_limit' is not defined")
      else .ok (acc ++ remaining) := by
  rw [downloadContent.eq_def]
  simp only [hne, dif_neg, not_false_iff]
  rw [List.take_of_length_le hlen, List.drop_eq_nil_of_le hlen]
  rw [downloadContent.eq_def]
  simp [List.length_append]

/-- Evaluation lemma: constructing a `Response` on the three-byte fixture
with no limit caches the whole body and drains the stream. -/
theorem responseInit_exRespSmall :
    responseInit exRespSmall .pyNone =
      .ok { status := 200, reason := "OK", version := 11, lengthLimit := Option.none,
            bodyCache := some [1, 2, 3], rawRemaining := [], closed := true } := by
  have e1 : responseInit exRespSmall .pyNone = responseInitDownload exRespSmall Option.none := rfl
  rw [e1]
  unfold responseInitDownload
  rw [downloadContent_none]
  rfl

/-- C1: with `length_limit = 5` a declared `Content-Length: 10` makes
`Response.__init__` close the connection and raise, and a ten-byte streamed
body with no declared length makes it raise mid-download without closing; in
both cases what escapes is a `NameError` (the raise statement formats the
undefined bare name `length_limit`), not the intended content-limit
`UrlfetchException`.  A body of exactly the limit (10 bytes, limit 10)
succeeds. -/
theorem c1_length_limit_nameerror_eval :
    responseInit exRespCL (.pyInt 5) = .err (.nameError "name 'length_limit' is not defined") true
    ∧ responseInit exRespNoCL (.pyInt 5) = .err (.nameError "name 'length_limit' is not defined") false
    ∧ responseInit exRespNoCL (.pyInt 10) =
        .ok { status := 200, reason := "OK", version := 11, lengthLimit := some 10,
              bodyCache := some exBody10, rawRemaining := [], closed := true } := by
  refine ⟨by decide, ?_, ?_⟩
  · have e1 : responseInit exRespNoCL (.pyInt 5) = responseInitDownload exRespNoCL (some 5) := rfl
    have e2 : downloadContent (some 5) exRespNoCL.bodyBytes [] =
        .error (.nameError "name 'length_limit' is not defined") := by
      rw [downloadContent_small (some 5) exRespNoCL.bodyBytes [] (by decide) (by decide)]
      decide
    rw [e1]
    unfold responseInitDownload
    rw [e2]
  · have e1 : responseInit exRespNoCL (.pyInt 10) = responseInitDownload exRespNoCL (some 10) := rfl
    have e2 : downloadContent (some 10) exRespNoCL.bodyBytes [] = .ok exBody10 := by
      rw [downloadContent_small (some 10) exRespNoCL.bodyBytes [] (by decide) (by decide)]
      decide
    rw [e1]
    unfold responseInitDownload
    rw [e2]
    rfl

/-- C10: a `length_limit` argument whose `int()` conversion fails is silently
treated as `None`: construction succeeds, no bound is imposed, and the whole
body is read. -/
theorem c10_bad_length_limit_ignored (r : HttpResponse) (v : PyVal) (e : PyErr)
    (h : toIntPy v = .error e) :
    responseInit r v =
      .ok { status := r.status, reason := r.reason, version := r.version,
            lengthLimit := Option.none, bodyCache := some r.bodyBytes,
            rawRemaining := [], closed := true } := by
  have hp : parseLengthLimit v = Option.none := by
    unfold parseLengthLimit
    rw [h]
  unfold responseInit
  rw [hp]
  unfold responseInitDownload
  rw [downloadContent_none]
  simp

/-- C10 witness: the concrete non-numeric limit "12abc" is ignored on the
three-byte fixture. -/
theorem c10_witness :
    toIntPy (.pyStr "12abc") = .error (.valueError "invalid literal for int() with base 10: 12abc")
    ∧ responseInit exRespSmall (.pyStr "12abc") =
        .ok { status := 200, reason := "OK", version := 11, lengthLimit := Option.none,
              bodyCache := some [1, 2, 3], rawRemaining := [], closed := true } :=
  ⟨by decide, c10_bad_length_limit_ignored exRespSmall (.pyStr "12abc")
    (.valueError "invalid literal for int() with base 10: 12abc") (by decide)⟩



/-- Structure of a successful `responseInitDownload`: the stream is drained
and the body cached. -/
theorem responseInitDownload_ok_shape (r : HttpResponse) (ll : Option Int)
    (s : Response) (h : responseInitDownload r ll = .ok s) :
    s.rawRemaining = [] ∧ s.bodyCache.isSome := by
  unfold responseInitDownload at h
  cases hdc : downloadContent ll r.bodyBytes [] with
  | error e => rw [hdc] at h; cases h
  | ok content => rw [hdc] at h; cases h; exact ⟨rfl, rfl⟩

/-- C4 counterexample: on the three-byte fixture with no limit, construction
alone already caches the entire body and leaves nothing unread on the
stream, refuting that the body is read only on first access of `body`. -/
theorem c4_counterexample_eager_read :
    responseInit exRespSmall .pyNone =
      .ok { status := 200, reason := "OK", version := 11, lengthLimit := Option.none,
            bodyCache := some [1, 2, 3], rawRemaining := [], closed := true }
    ∧ exRespSmall.bodyBytes = [1, 2, 3] ∧ ([1, 2, 3] : List Nat) ≠ [] :=
  ⟨responseInit_exRespSmall, by decide, by decide⟩

/-- C4 amended: the single-file variant always reads the whole body at
construction (every successful `__init__` drains the stream and fills the
cache); the package variant reads eagerly exactly when `prefetch` is true,
and with `prefetch` false the body is read only on first access of `body`. -/
theorem c4_amended_eagerness :
    (∀ (r : HttpResponse) (v : PyVal) (s : Response),
        responseInit r v = .ok s → s.rawRemaining = [] ∧ s.bodyCache.isSome)
    ∧ (∀ r : HttpResponse,
        (pkgResponseInit r true).bodyCache = some r.bodyBytes
        ∧ (pkgResponseInit r false).bodyCache = Option.none
        ∧ (pkgResponseInit r false).rawRemaining = r.bodyBytes
        ∧ (pkgBody (pkgResponseInit r false)).1 = r.bodyBytes
        ∧ ((pkgBody (pkgResponseInit r false)).2).bodyCache = some r.bodyBytes) := by
  constructor
  · intro r v s h
    unfold responseInit at h
    cases hp : parseLengthLimit v with
    | none =>
      rw [hp] at h
      exact responseInitDownload_ok_shape r _ s h
    | some l =>
      rw [hp] at h
      dsimp only at h
      by_cases hl : l ≠ 0
      · rw [if_pos hl] at h
        cases hcl : toIntPy (getheaderD r "Content-Length" (.pyInt 0)) with
        | error e => rw [hcl] at h; cases h
        | ok declared =>
          rw [hcl] at h
          dsimp only at h
          by_cases hgt : declared > l
          · rw [if_pos hgt] at h; cases h
          · rw [if_neg hgt] at h
            exact responseInitDownload_ok_shape r _ s h
      · rw [if_neg hl] at h
        exact responseInitDownload_ok_shape r _ s h
  · intro r
    exact ⟨rfl, rfl, rfl, rfl, rfl⟩

/-- C4 amended witness: the amended statement instantiated on the three-byte
fixture. -/
theorem c4_amended_witness :
    (({ status := 200, reason := "OK", version := 11, lengthLimit := Option.none,
        bodyCache := some [1, 2, 3], rawRemaining := [], closed := true } : Response).rawRemaining = []
      ∧ ({ status := 200, reason := "OK", version := 11, lengthLimit := Option.none,
           bodyCache := some [1, 2, 3], rawRemaining := [], closed := true } : Response).bodyCache.isSome)
    ∧ ((pkgResponseInit exRespSmall true).bodyCache = some exRespSmall.bodyBytes
        ∧ (pkgResponseInit exRespSmall false).bodyCache = Option.none
        ∧ (pkgResponseInit exRespSmall false).rawRemaining = exRespSmall.bodyBytes
        ∧ (pkgBody (pkgResponseInit exRespSmall false)).1 = exRespSmall.bodyBytes
        ∧ ((pkgBody (pkgResponseInit exRespSmall false)).2).bodyCache = some exRespSmall.bodyBytes) :=
  ⟨c4_amended_eagerness.1 exRespSmall .pyNone _ responseInit_exRespSmall,
   c4_amended_eagerness.2 exRespSmall⟩

/-- C9: a second access of `body` returns the same bytes and leaves the
state unchanged (no further read of the underlying stream), in both the
package variant and the single-file variant. -/
theorem c9_body_second_access_cached :
    (∀ s : PkgResponse, pkgBody (pkgBody s).2 = ((pkgBody s).1, (pkgBody s).2))
    ∧ (∀ (s : Response) (p : List Nat × Response),
        responseBody s = .ok p → responseBody p.2 = .ok p) := by
  constructor
  · intro s
    cases hc : s.bodyCache with
    | some b => simp [pkgBody, hc]
    | none => simp [pkgBody, hc]
  · intro s p h
    unfold responseBody at h
    cases hc : s.bodyCache with
    | some b =>
      rw [hc] at h
      cases h
      unfold responseBody
      rw [hc]
    | none =>
      rw [hc] at h
      cases hd : downloadContent s.lengthLimit s.rawRemaining [] with
      | error e => rw [hd] at h; cases h
      | ok content => rw [hd] at h; cases h; rfl

/-- C9 witness: the single-file idempotence applied to a cached response. -/
theorem c9_witness :
    responseBody (([7], exRespCached) : List Nat × Response).2 = .ok ([7], exRespCached) :=
  c9_body_second_access_cached.2 exRespCached ([7], exRespCached) rfl



/-- C2 counterexample: the netloc `example.com:-` (colon followed by a
non-integer) makes the port parse raise a `ValueError`, and `request` on such
a URL propagates it — port is not `None` and an exception is raised. -/
theorem c2_counterexample_port_raises :
    parseHostPort "example.com:-" = .error (.valueError "invalid literal for int() with base 10: -")
    ∧ requestCore asciiIdna "bnd"
        { scheme := "http", netloc := "example.com:-", path := "/", query := "", fragment := "" }
        "GET" .noData [] []
        = (.error (.valueError "invalid literal for int() with base 10: -"), []) :=
  ⟨by decide, by decide⟩

/-- C2 amended: whenever the netloc contains a colon and the text after the
last colon does not parse as an integer, URL parsing raises a `ValueError`
from `int()`; port `None` arises only when the netloc has no colon. -/
theorem c2_amended_port_failure_raises (netloc host portStr : String)
    (hsplit : rsplitColon netloc = some (host, portStr))
    (hint : strToInt portStr = Option.none) :
    parseHostPort netloc =
      .error (.valueError ("invalid literal for int() with base 10: " ++ portStr)) := by
  unfold parseHostPort
  rw [hsplit]
  dsimp only
  unfold toIntPy
  dsimp only
  rw [hint]

/-- C2 amended witness: instantiated on `h:x`. -/
theorem c2_amended_witness :
    parseHostPort "h:x" = .error (.valueError "invalid literal for int() with base 10: x") :=
  c2_amended_port_failure_raises "h:x" "h" "x" (by decide) (by decide)

/-- C3: calling `fetch` with `data=None` and a non-empty `files` mapping
issues a GET — the dispatch condition tests only `data`, contradicting the
docstring's promise that supplying `files` selects `post`. -/
theorem c3_fetch_files_only_sends_get :
    fetchDispatch .noData exFiles = "GET"
    ∧ exFiles ≠ []
    ∧ ((fetchCall asciiIdna "bnd" exParts .noData [] exFiles).1.toOption.map
        RequestPlan.method) = some "GET" :=
  ⟨rfl, by decide, by decide⟩

/-- C6: a method whose upper-casing is outside the allowed set makes
`request` raise the invalid-method `UrlfetchException` with an empty effect
trace: no connection is opened and nothing is sent, whatever the URL, body,
headers or files. -/
theorem c6_invalid_method_before_connect
    (idna : String → Except PyErr String) (boundary : String) (parts : UrlParts)
    (method : String) (data : PyData) (headers : List (String × String))
    (files : List (String × FileVal)) (h : pyUpper method ∉ allowedMethods) :
    requestCore idna boundary parts method data headers files =
      (.error (.urlfetchException
        "Method shoud be one of GET, DELETE, HEAD, OPTIONS, PUT, POST, TRACE, PATCH"), []) := by
  unfold requestCore
  rw [if_neg h]
  decide

/-- C6 witness: instantiated on the unsupported method `frob`. -/
theorem c6_witness :
    pyUpper "frob" ∉ allowedMethods
    ∧ requestCore asciiIdna "bnd" exParts "frob" .noData [] [] =
        (.error (.urlfetchException
          "Method shoud be one of GET, DELETE, HEAD, OPTIONS, PUT, POST, TRACE, PATCH"), []) :=
  ⟨by decide,
   c6_invalid_method_before_connect asciiIdna "bnd" exParts "frob" .noData [] [] (by decide)⟩

/-- C7 counterexample: `fetch2` puts the fragment on the wire — for
`/p?q=1#top` the computed request-target is `/p?q=1#top`, not `/p?q=1`. -/
theorem c7_counterexample_fragment_on_wire :
    fetch2Core { scheme := "http", netloc := "example.com", path := "/p",
                 query := "q=1", fragment := "top" } "GET"
      = .ok { method := "GET", requrl := "/p?q=1#top", connHost := "example.com",
              connPort := Option.none, scheme := "http", auth := Option.none }
    ∧ "/p?q=1#top" ≠ "/p?q=1" :=
  ⟨by decide, by decide⟩

/-- C7 amended: `request` computes the wire request-target as path plus
`?query` when the query is non-empty, never the fragment; the legacy
`fetch2` additionally appends `#fragment` when the fragment is non-empty. -/
theorem c7_amended_request_target :
    (∀ (idna : String → Except PyErr String) (boundary : String) (parts : UrlParts)
        (method : String) (data : PyData) (headers : List (String × String))
        (files : List (String × FileVal)) (p : RequestPlan) (effs : List Effect),
        requestCore idna boundary parts method data headers files = (.ok p, effs) →
        p.requrl = parts.path ++ (if parts.query ≠ "" then "?" ++ parts.query else ""))
    ∧ (∀ (parts : UrlParts) (method : String) (p : Fetch2Plan),
        fetch2Core parts method = .ok p →
        p.requrl = (parts.path ++ (if parts.query ≠ "" then "?" ++ parts.query else ""))
          ++ (if parts.fragment ≠ "" then "#" ++ parts.fragment else "")) := by
  constructor
  · intro idna boundary parts method data headers files p effs h
    unfold requestCore at h
    by_cases hm : pyUpper method ∈ allowedMethods
    · rw [if_pos hm] at h
      dsimp only at h
      cases hhp : parseHostPort parts.netloc with
      | error e => rw [hhp] at h; simp at h
      | ok hp =>
        rw [hhp] at h
        obtain ⟨host0, port⟩ := hp
        dsimp only at h
        cases hid : idna host0 with
        | error e => rw [hid] at h; simp at h
        | ok host =>
          rw [hid] at h
          dsimp only at h
          by_cases hs : parts.scheme = "https" ∨ parts.scheme = "http"
          · rw [if_pos hs] at h
            cases hab : assembleBody boundary data files with
            | error e => rw [hab] at h; simp at h
            | ok rh =>
              rw [hab] at h
              obtain ⟨reqheaders0, sentData⟩ := rh
              dsimp only at h
              simp only [Prod.mk.injEq, Except.ok.injEq] at h
              obtain ⟨h1, h2⟩ := h
              rw [← h1]
          · rw [if_neg hs] at h; simp at h
    · rw [if_neg hm] at h; simp at h
  · intro parts method p h
    unfold fetch2Core at h
    cases hsp : splitAtSign parts.netloc.toList with
    | none =>
      rw [hsp] at h
      dsimp only at h
      cases hhp : parseHostPort parts.netloc with
      | error e => rw [hhp] at h; simp at h
      | ok hp =>
        rw [hhp] at h
        obtain ⟨host, port⟩ := hp
        dsimp only at h
        by_cases hs : parts.scheme = "https" ∨ parts.scheme = "http"
        · rw [if_pos hs] at h
          simp only [Except.ok.injEq] at h
          rw [← h]
        · rw [if_neg hs] at h; simp at h
    | some ab =>
      rw [hsp] at h
      obtain ⟨a, b⟩ := ab
      dsimp only at h
      cases hhp : parseHostPort (String.mk b) with
      | error e => rw [hhp] at h; simp at h
      | ok hp =>
        rw [hhp] at h
        obtain ⟨host, port⟩ := hp
        dsimp only at h
        by_cases hs : parts.scheme = "https" ∨ parts.scheme = "http"
        · rw [if_pos hs] at h
          simp only [Except.ok.injEq] at h
          rw [← h]
        · rw [if_neg hs] at h; simp at h

/-- C7 amended witness: both conclusions instantiated on `/p?q=1#frag`. -/
theorem c7_amended_witness :
    exPlanC7.requrl = exPartsC7.path ++ (if exPartsC7.query ≠ "" then "?" ++ exPartsC7.query else "")
    ∧ exPlan2C7.requrl = (exPartsC7.path ++ (if exPartsC7.query ≠ "" then "?" ++ exPartsC7.query else ""))
        ++ (if exPartsC7.fragment ≠ "" then "#" ++ exPartsC7.fragment else "") :=
  ⟨c7_amended_request_target.1 asciiIdna "bnd" exPartsC7 "GET" .noData [] [] exPlanC7 exEffsC7
      (by decide),
   c7_amended_request_target.2 exPartsC7 "GET" exPlan2C7 (by decide)⟩

/-- C8: for every bytes input, `mb_code` returns the utf-8 decode with
replacement characters — because `errors='replace'` makes the very first
codec total, the remaining codecs (gb2312, gbk, gb18030, big5) are never
consulted, whatever they would do; on the GBK bytes `d6 d0` (the character
that gb2312/gbk would decode) the result is two replacement characters. -/
theorem c8_mbcode_always_utf8_replace :
    (∀ (cjk : String → List Nat → Except PyErr String) (bs : List Nat),
        mbCode cjk bs = .inl (utf8Replace bs))
    ∧ mbCode (fun _ _ => .error (.valueError "unreachable")) [0xD6, 0xD0]
        = .inl (String.mk [replacementChar, replacementChar]) := by
  refine ⟨fun cjk bs => rfl, by decide⟩



/-- The data loop emits exactly one part per field when every value is a
scalar, preserving each value's bytes. -/
theorem encodeDataParts_scalar (boundary : String) (d : List (String × FieldVal))
    (h : ∀ p ∈ d, isScalarField p.2 = true) :
    ∃ ln, encodeDataParts boundary d =
      .ok ((d.map fun p => scalarPart boundary p.1 (scalarValueBytes p.2)).flatten, ln) := by
  induction d with
  | nil => exact ⟨Option.none, rfl⟩
  | cons hd tl ih =>
    obtain ⟨n, v⟩ := hd
    obtain ⟨ln, hln⟩ := ih (fun p hp => h p (List.mem_cons_of_mem _ hp))
    have hhd := h (n, v) (List.mem_cons_self _ _)
    have hw : writeValue v = .ok (scalarValueBytes v) := by
      cases v with
      | fstr s => rfl
      | fbytes b => rfl
      | flist l => simp [isScalarField] at hhd
    refine ⟨some (ln.getD n), ?_⟩
    unfold encodeDataParts
    rw [hw, hln]
    simp

/-- The data loop errors as soon as any field value is a list. -/
theorem encodeDataParts_err (boundary : String) (d : List (String × FieldVal))
    (h : ∃ p ∈ d, isScalarField p.2 = false) :
    ∃ e, encodeDataParts boundary d = .error e := by
  induction d with
  | nil => obtain ⟨p, hp, _⟩ := h; cases hp
  | cons hd tl ih =>
    obtain ⟨n, v⟩ := hd
    obtain ⟨p, hp, hps⟩ := h
    cases hw : writeValue v with
    | error e =>
      refine ⟨e, ?_⟩
      unfold encodeDataParts
      rw [hw]
    | ok vb =>
      have hmem : p ∈ tl := by
        cases List.mem_cons.mp hp with
        | inl heq =>
          exfalso
          subst heq
          cases v with
          | fstr s => simp [isScalarField] at hps
          | fbytes b => simp [isScalarField] at hps
          | flist l => simp [writeValue] at hw
        | inr hmem => exact hmem
      obtain ⟨e, he⟩ := ih ⟨p, hmem, hps⟩
      refine ⟨e, ?_⟩
      unfold encodeDataParts
      rw [hw, he]

/-- C5 counterexample: a list-valued form field is not expanded into
repeated parts — the multipart encoder raises a `TypeError` when it writes
the list. -/
theorem c5_counterexample_list_typeerror :
    encodeMultipart "bnd" (.dictData [("k", .flist ["a", "b"])]) [] =
      .error (.typeError "a bytes-like object is required, not list") :=
  by decide

/-- C5 amended: each string/bytes field yields exactly one part preserving
its value; a dict containing any list-valued field makes the encoder raise
instead of expanding it. -/
theorem c5_amended_one_part_per_scalar :
    (∀ (boundary : String) (d : List (String × FieldVal)),
        (∀ p ∈ d, isScalarField p.2 = true) →
        encodeMultipart boundary (.dictData d) [] =
          .ok ("multipart/form-data; boundary=" ++ boundary,
            (d.map fun p => scalarPart boundary p.1 (scalarValueBytes p.2)).flatten
              ++ latin1Bytes ("--" ++ boundary ++ "--\r\n")))
    ∧ (∀ (boundary : String) (d : List (String × FieldVal)),
        (∃ p ∈ d, isScalarField p.2 = false) →
        ∃ e, encodeMultipart boundary (.dictData d) [] = .error e) := by
  constructor
  · intro boundary d h
    obtain ⟨ln, hln⟩ := encodeDataParts_scalar boundary d h
    unfold encodeMultipart
    dsimp only
    rw [hln]
    simp [encodeFileParts]
  · intro boundary d h
    obtain ⟨e, he⟩ := encodeDataParts_err boundary d h
    refine ⟨e, ?_⟩
    unfold encodeMultipart
    dsimp only
    rw [he]

/-- C5 amended witness: one scalar field yields one part; one list field
raises. -/
theorem c5_amended_witness :
    encodeMultipart "B" (.dictData [("a", .fstr "x")]) [] =
      .ok ("multipart/form-data; boundary=" ++ "B",
        ([("a", FieldVal.fstr "x")].map fun p => scalarPart "B" p.1 (scalarValueBytes p.2)).flatten
          ++ latin1Bytes ("--" ++ "B" ++ "--\r\n"))
    ∧ ∃ e, encodeMultipart "B" (.dictData [("k", .flist ["a"])]) [] = .error e :=
  ⟨c5_amended_one_part_per_scalar.1 "B" [("a", .fstr "x")] (by decide),
   c5_amended_one_part_per_scalar.2 "B" [("k", .flist ["a"])]
     ⟨("k", .flist ["a"]), by decide, by decide⟩⟩


end Urlfetch
